import Mathlib

/-!
Verification of the meeting-recorder client (src/App.jsx).

The component is embedded as an explicit state machine.  The React state
variables (`recording`, `transcript`, `summary`, `actionItems`, `status`)
and the two refs (`mediaRecorderRef`, `chunksRef`) become fields of
`SessionState`.  Each event the browser can deliver — a button click, the
resolution of `getUserMedia`, a `dataavailable` or `stop` event of the
recorder, the resolution of one of the three `fetch` calls — becomes a
constructor of `Event`, and `step` applies its handler exactly as the
source does, including the `disabled` gating of the four buttons.
Asynchronous handlers are split at their `await` points: `clickRecord`
runs the synchronous prefix of `startRecording` and `grantDevice` /
`denyDevice` run the rest when the device promise settles; pending
promises are counted in ghost fields (`pendingStarts`, `onstopPending`,
`uploadPending`, `pendingSaves`, `pendingSummarizes`), and the
acquisition/release of microphone streams is counted in the ghost fields
`acquireCount` / `releaseCount`.

JavaScript values returned by `res.json()` are modelled by `Json`
(arrays are kept as string arrays, the only shape the app produces or
consumes), `a || b` by `jsOrElse`, JS truthiness by `jsTruthy`,
`JSON.stringify` by `stringify`, and rendering a value into a string
context by `jsDisplay`.
-/

inductive Json where
  | str : String → Json
  | num : Nat → Json
  | arr : List String → Json
  | obj : List (String × Json) → Json

def escChar (c : Char) : String :=
  if c = '"' then "\\\"" else if c = '\\' then "\\\\" else String.singleton c

def escList : List Char → String
  | [] => ""
  | c :: cs => escChar c ++ escList cs

/-- JSON string escaping (quotes and backslashes; the app never produces
control characters). -/
def jsonEscape (s : String) : String := escList s.data

def quoteStr (s : String) : String := "\"" ++ jsonEscape s ++ "\""

mutual

/-- Model of `JSON.stringify` on the values the app handles. -/
def stringify : Json → String
  | .str s => quoteStr s
  | .num n => toString n
  | .arr xs => "[" ++ String.intercalate "," (xs.map quoteStr) ++ "]"
  | .obj kvs => "\x7b" ++ stringifyKVs kvs ++ "\x7d"

def stringifyKVs : List (String × Json) → String
  | [] => ""
  | [(k, v)] => quoteStr k ++ ":" ++ stringify v
  | (k, v) :: rest => quoteStr k ++ ":" ++ stringify v ++ "," ++ stringifyKVs rest

end

def lookupKV : List (String × Json) → String → Option Json
  | [], _ => none
  | (k, v) :: rest, key => if k = key then some v else lookupKV rest key

/-- Property access `j.k`: `none` plays the role of `undefined`. -/
def lookupField : Json → String → Option Json
  | .obj kvs, k => lookupKV kvs k
  | _, _ => none

/-- JS truthiness of a defined value: empty strings and 0 are falsy,
arrays and objects are truthy. -/
def jsTruthy : Json → Bool
  | .str s => s ≠ ""
  | .num n => n ≠ 0
  | .arr _ => true
  | .obj _ => true

/-- Rendering a JS value in a string position (string concatenation /
text interpolation). -/
def jsDisplay : Json → String
  | .str s => s
  | .num n => toString n
  | .arr xs => String.intercalate "," xs
  | .obj _ => "[object Object]"

/-- The expression `v || d` where `v` is a property access that may be
`undefined`. -/
def jsOrElse (v : Option Json) (d : Json) : Json :=
  match v with
  | some x => if jsTruthy x then x else d
  | none => d

/-- String concatenation with a possibly-undefined value
(`undefined` renders as "undefined"). -/
def jsConcat : Option Json → String
  | none => "undefined"
  | some v => jsDisplay v

/-- The `MediaRecorder` held in `mediaRecorderRef`; `rstate` mirrors its
`state` property ("recording" after `mr.start()`, "inactive" after
`mr.stop()`). -/
structure Recorder where
  rstate : String
  deriving DecidableEq, Repr

/-- The `Blob` built in `mr.onstop`. -/
structure Blob where
  bytes : List Nat
  mime : String
  deriving DecidableEq, Repr

structure SessionState where
  recording : Bool
  transcript : String
  summary : Json
  actionItems : Json
  status : String
  recorder : Option Recorder
  chunks : List (List Nat)
  lastBlob : Option Blob
  lastSummarizeBody : Option String
  pendingStarts : Nat
  onstopPending : Nat
  uploadPending : Nat
  pendingSaves : Nat
  pendingSummarizes : Nat
  acquireCount : Nat
  releaseCount : Nat

/-- Initial state of the component (the `useState` initialisers). -/
def init : SessionState :=
  { recording := false
    transcript := ""
    summary := .str ""
    actionItems := .arr []
    status := "idle"
    recorder := none
    chunks := []
    lastBlob := none
    lastSummarizeBody := none
    pendingStarts := 0
    onstopPending := 0
    uploadPending := 0
    pendingSaves := 0
    pendingSummarizes := 0
    acquireCount := 0
    releaseCount := 0 }

/-- Synchronous prefix of `startRecording` (lines 13-14), run before the
`getUserMedia` promise is awaited. -/
def startRecordingSync (s : SessionState) : SessionState :=
  { s with transcript := ""
           status := "requesting_mic"
           pendingStarts := s.pendingStarts + 1 }

/-- Rest of the `try` block of `startRecording` once `getUserMedia`
resolves: a stream is acquired, a fresh recorder replaces whatever
`mediaRecorderRef` held (the previous recorder's stream, if any, is
simply dropped), the chunk buffer is cleared and recording begins. -/
def grantStep (s : SessionState) : SessionState :=
  { s with pendingStarts := s.pendingStarts - 1
           acquireCount := s.acquireCount + 1
           recorder := some { rstate := "recording" }
           chunks := []
           recording := true
           status := "recording" }

/-- The `catch` block of `startRecording`: `getUserMedia` rejected. -/
def denyStep (s : SessionState) (msg : String) : SessionState :=
  { s with pendingStarts := s.pendingStarts - 1
           status := "mic_error"
           transcript := "Microphone access denied or not available: " ++ msg }

/-- The `stopRecording` function (lines 55-63).  The recorder stop and the
track release are guarded on an active recorder; `setRecording(false)`
and `setStatus('stopped')` run unconditionally. -/
def stopRecording (s : SessionState) : SessionState :=
  let s1 :=
    match s.recorder with
    | some r =>
        if r.rstate = "inactive" then s
        else
          { s with recorder := some { rstate := "inactive" }
                   onstopPending := s.onstopPending + 1
                   releaseCount := s.releaseCount + 1 }
    | none => s
  { s1 with recording := false, status := "stopped" }

/-- The `mr.ondataavailable` handler: push the chunk when its size is
positive. -/
def ondata (s : SessionState) (bytes : List Nat) : SessionState :=
  if 0 < bytes.length then { s with chunks := s.chunks ++ [bytes] } else s

/-- The `mr.onstop` handler up to its `await`: status `uploading` and the
blob built from the buffered chunks. -/
def onstopFire (s : SessionState) : SessionState :=
  { s with onstopPending := s.onstopPending - 1
           status := "uploading"
           lastBlob := some { bytes := s.chunks.flatten, mime := "audio/webm" }
           uploadPending := s.uploadPending + 1 }

/-- The expression `json.transcription || JSON.stringify(json)` rendered
into the transcript field. -/
def uploadTranscript (j : Json) : String :=
  match lookupField j "transcription" with
  | some v => if jsTruthy v then jsDisplay v else stringify j
  | none => stringify j

inductive UploadResult where
  | jsonOf : Json → UploadResult
  | failed : String → UploadResult

/-- Resolution of the upload fetch inside `mr.onstop`: the code never
inspects `res.ok` here; any parsed JSON leads to `done`, a rejected
fetch or JSON parse to `error`. -/
def uploadFinish (s : SessionState) : UploadResult → SessionState
  | .jsonOf j =>
      { s with uploadPending := s.uploadPending - 1
               transcript := uploadTranscript j
               status := "done" }
  | .failed msg =>
      { s with uploadPending := s.uploadPending - 1
               transcript := "Error uploading/transcribing: " ++ msg
               status := "error" }

/-- Synchronous prefix of the Save button handler. -/
def clickSaveStep (s : SessionState) : SessionState :=
  { s with status := "saving", pendingSaves := s.pendingSaves + 1 }

/-- Message of the TypeError thrown by `j.file.webViewLink` when `j.file`
is undefined (exact engine wording abstracted). -/
def typeErrorMessage : String :=
  "Cannot read properties of undefined reading webViewLink"

inductive SaveResult where
  | response : Bool → Json → SaveResult
  | failed : String → SaveResult

/-- Text appended to the transcript when the save request settles:
`j.file.webViewLink || j.file.id` on success, the stringified body or
the error message otherwise. -/
def saveSuffix : SaveResult → String
  | .failed msg => "\n\n[Save error] " ++ msg
  | .response ok j =>
      if ok then
        match lookupField j "file" with
        | some f =>
            "\n\n[Saved to Drive] " ++
              (match lookupField f "webViewLink" with
               | some v => if jsTruthy v then jsDisplay v else jsConcat (lookupField f "id")
               | none => jsConcat (lookupField f "id"))
        | none => "\n\n[Save error] " ++ typeErrorMessage
      else "\n\n[Save error] " ++ stringify j

def saveStatusOf : SaveResult → String
  | .failed _ => "save_error"
  | .response ok j =>
      if ok then
        match lookupField j "file" with
        | some _ => "saved"
        | none => "save_error"
      else "save_error"

/-- Resolution of the save fetch: status transition plus the functional
transcript update `prev => prev + ...`. -/
def saveResolveStep (s : SessionState) (r : SaveResult) : SessionState :=
  { s with pendingSaves := s.pendingSaves - 1
           status := saveStatusOf r
           transcript := s.transcript ++ saveSuffix r }

/-- The body `JSON.stringify({ text: transcript, num_sentences: 3 })`
of the summarize request (line 120). -/
def summarizeRequestBody (t : String) : Json :=
  .obj [("text", .str t), ("num_sentences", .num 3)]

/-- Synchronous prefix of the Summarize button handler; records the
request body it sends. -/
def clickSummarizeStep (s : SessionState) : SessionState :=
  { s with status := "summarizing"
           pendingSummarizes := s.pendingSummarizes + 1
           lastSummarizeBody := some (stringify (summarizeRequestBody s.transcript)) }

inductive SummarizeResult where
  | response : Bool → Json → SummarizeResult
  | failed : String → SummarizeResult

/-- Resolution of the summarize fetch: `j.summary || ''` and
`j.action_items || []` on success, error text into `summary`
otherwise. -/
def summarizeResolveStep (s : SessionState) : SummarizeResult → SessionState
  | .failed msg =>
      { s with pendingSummarizes := s.pendingSummarizes - 1
               summary := .str ("Error summarizing: " ++ msg)
               status := "summary_error" }
  | .response ok j =>
      if ok then
        { s with pendingSummarizes := s.pendingSummarizes - 1
                 summary := jsOrElse (lookupField j "summary") (.str "")
                 actionItems := jsOrElse (lookupField j "action_items") (.arr [])
                 status := "summarized" }
      else
        { s with pendingSummarizes := s.pendingSummarizes - 1
                 summary := .str ("Error summarizing: " ++ stringify j)
                 status := "summary_error" }

inductive Event where
  | clickRecord : Event
  | grantDevice : Event
  | denyDevice : String → Event
  | dataAvailable : List Nat → Event
  | clickStop : Event
  | recorderStopped : Event
  | uploadResolve : UploadResult → Event
  | clickSave : Event
  | saveResolve : SaveResult → Event
  | clickSummarize : Event
  | summarizeResolve : SummarizeResult → Event

/-- One step of the component.  Clicks are gated exactly as the buttons'
`disabled` attributes gate them (Record: `disabled={recording}`, Stop:
`disabled={!recording}`, Save: `disabled={!transcript || status ===
'saving'}`, Summarize: `disabled={!transcript || status ===
'summarizing'}`); promise resolutions require a matching pending
operation. -/
def step (s : SessionState) : Event → SessionState
  | .clickRecord => if s.recording then s else startRecordingSync s
  | .grantDevice => if 0 < s.pendingStarts then grantStep s else s
  | .denyDevice msg => if 0 < s.pendingStarts then denyStep s msg else s
  | .dataAvailable b => ondata s b
  | .clickStop => if s.recording then stopRecording s else s
  | .recorderStopped => if 0 < s.onstopPending then onstopFire s else s
  | .uploadResolve r => if 0 < s.uploadPending then uploadFinish s r else s
  | .clickSave =>
      if s.transcript = "" ∨ s.status = "saving" then s else clickSaveStep s
  | .saveResolve r => if 0 < s.pendingSaves then saveResolveStep s r else s
  | .clickSummarize =>
      if s.transcript = "" ∨ s.status = "summarizing" then s else clickSummarizeStep s
  | .summarizeResolve r =>
      if 0 < s.pendingSummarizes then summarizeResolveStep s r else s

def run (s : SessionState) (es : List Event) : SessionState :=
  es.foldl step s

/-- The status field truthfully reports in-flight persist/summarize
operations. -/
def statusConsistent (s : SessionState) : Prop :=
  (0 < s.pendingSaves → s.status = "saving") ∧
    (0 < s.pendingSummarizes → s.status = "summarizing")

instance (s : SessionState) : Decidable (statusConsistent s) := by
  unfold statusConsistent
  infer_instance

lemma run_cons (s : SessionState) (e : Event) (es : List Event) :
    run s (e :: es) = run (step s e) es := rfl

lemma run_append (s : SessionState) (l1 l2 : List Event) :
    run s (l1 ++ l2) = run (run s l1) l2 :=
  List.foldl_append step s l1 l2

/-- Delivering a batch of `dataavailable` events only appends the
non-empty chunks, in order, to the buffer. -/
lemma deliver_chunks (cs : List (List Nat)) (s : SessionState) :
    run s (cs.map Event.dataAvailable) =
      { s with chunks := s.chunks ++ cs.filter (fun c => 0 < c.length) } := by
  induction cs generalizing s with
  | nil => simp [run]
  | cons c cs ih =>
    by_cases h : 0 < c.length
    · simp [run_cons, step, ondata, h, ih, List.filter_cons, List.append_assoc]
    · simp [run_cons, step, ondata, h, ih, List.filter_cons]

/-- Happy-path trace: record, one chunk, stop, transcription succeeds
with text "T". -/
def doneTrace : List Event :=
  [.clickRecord, .grantDevice, .dataAvailable [1, 2], .clickStop, .recorderStopped,
   .uploadResolve (.jsonOf (.obj [("transcription", .str "T")]))]

def sDone : SessionState := run init doneTrace

/-- State in which the upload fetch is in flight. -/
def sUploading : SessionState :=
  run init [.clickRecord, .grantDevice, .dataAvailable [1], .clickStop, .recorderStopped]

/-- While recording. -/
def sRec : SessionState := run init [.clickRecord, .grantDevice]

/-- Happy path followed by a successful summarize. -/
def sSumm : SessionState :=
  run init (doneTrace ++
    [.clickSummarize,
     .summarizeResolve (.response true
       (.obj [("summary", .str "alpha."), ("action_items", .arr ["buy milk"])]))])

/-- Two Record clicks land before the permission prompt is answered,
both `getUserMedia` promises resolve with a stream, then the user stops
and the transcription resolves. -/
def sLeak : SessionState :=
  run init [.clickRecord, .clickRecord, .grantDevice, .grantDevice, .clickStop,
    .recorderStopped, .uploadResolve (.jsonOf (.obj [("transcription", .str "x")]))]

/-- A save and a summarize are started back to back, then the save
resolves first while the summarize is still in flight. -/
def sBoth : SessionState :=
  run init (doneTrace ++
    [.clickSave, .clickSummarize,
     .saveResolve (.response true (.obj [("file", .obj [("webViewLink", .str "L")])]))])

/-- Happy path followed by a save that succeeds with link "L". -/
def sSaved : SessionState :=
  run init (doneTrace ++
    [.clickSave,
     .saveResolve (.response true (.obj [("file", .obj [("webViewLink", .str "L")])]))])

def sDeny : SessionState := run init [.clickRecord, .denyDevice "denied"]

def sUploadFail : SessionState :=
  run init [.clickRecord, .grantDevice, .clickStop, .recorderStopped,
    .uploadResolve (.failed "boom")]

/-- The {5,0,7} chunk scenario. -/
def tr537 : List Event :=
  [.clickRecord, .grantDevice,
   .dataAvailable [1, 1, 1, 1, 1], .dataAvailable [], .dataAvailable [2, 2, 2, 2, 2, 2, 2],
   .clickStop, .recorderStopped]

/-- Claim C1 (counterexample): in the reachable state reached after a
recording was transcribed and summarized, clicking Record starts a new
request (status `requesting_mic`) but leaves the previous summary
("alpha.") and action items ("buy milk") in place — they are not reset
to their empty values. -/
theorem C1_counterexample :
    sSumm.status = "summarized" ∧
    (step sSumm .clickRecord).status = "requesting_mic" ∧
    jsDisplay (step sSumm .clickRecord).summary = "alpha." ∧
    jsDisplay (step sSumm .clickRecord).summary ≠ "" ∧
    jsDisplay (step sSumm .clickRecord).actionItems = "buy milk" := by
  decide

/-- Claim C1 (amended): the synchronous prefix of `startRecording` run
before the device is requested clears only the transcript and sets the
status to `requesting_mic`; `summary` and `actionItems` keep their
previous values (and there is no separate errorMessage field to clear:
error text lives in `transcript` or `summary`). -/
theorem C1_start_clears_only_transcript (s : SessionState) :
    (startRecordingSync s).transcript = "" ∧
    (startRecordingSync s).status = "requesting_mic" ∧
    (startRecordingSync s).summary = s.summary ∧
    (startRecordingSync s).actionItems = s.actionItems :=
  ⟨rfl, rfl, rfl, rfl⟩

/-- Claim C2 (code bug): with two overlapping `start()` calls that are
both granted, the second recorder replaces the first in
`mediaRecorderRef`, and `stopRecording` releases only the stream of the
recorder currently in the ref.  At session end (status `done`) two
streams were acquired but only one was released. -/
theorem C2_leak_on_overlapping_starts :
    sLeak.acquireCount = 2 ∧ sLeak.releaseCount = 1 ∧ sLeak.status = "done" := by
  decide

/-- Claim C3 (counterexample): the code does not use the §4.1 names —
device denial produces status "mic_error", not "device_error", and
transcription failure produces status "error", not "upload_error". -/
theorem C3_counterexample :
    sDeny.status = "mic_error" ∧ sDeny.status ≠ "device_error" ∧
    sUploadFail.status = "error" ∧ sUploadFail.status ≠ "upload_error" := by
  decide

/-- Claim C3 (amended): device denial or unavailability sets status to
"mic_error" and transcription failure sets status to "error" (the
code's names for these error states), and in each case a human-readable
message incorporating the thrown error's message is written into the
transcript. -/
theorem C3_error_statuses (s t : SessionState) (m1 m2 : String)
    (hs : 0 < s.pendingStarts) (ht : 0 < t.uploadPending) :
    (step s (.denyDevice m1)).status = "mic_error" ∧
    (step s (.denyDevice m1)).transcript =
      "Microphone access denied or not available: " ++ m1 ∧
    (step t (.uploadResolve (.failed m2))).status = "error" ∧
    (step t (.uploadResolve (.failed m2))).transcript =
      "Error uploading/transcribing: " ++ m2 := by
  simp [step, hs, ht, denyStep, uploadFinish]

/-- Claim C3 witness: the amended statement at concrete reachable
states. -/
theorem C3_error_statuses_witness :
    0 < (startRecordingSync init).pendingStarts ∧ 0 < sUploading.uploadPending ∧
    ((step (startRecordingSync init) (.denyDevice "denied")).status = "mic_error" ∧
     (step (startRecordingSync init) (.denyDevice "denied")).transcript =
       "Microphone access denied or not available: " ++ "denied" ∧
     (step sUploading (.uploadResolve (.failed "boom"))).status = "error" ∧
     (step sUploading (.uploadResolve (.failed "boom"))).transcript =
       "Error uploading/transcribing: " ++ "boom") :=
  ⟨by decide, by decide,
   C3_error_statuses (startRecordingSync init) sUploading "denied" "boom"
     (by decide) (by decide)⟩

/-- Claim C4 (counterexample): a successful persist mutates the stored
transcript — after saving, the transcript state itself carries the
"[Saved to Drive]" annotation and is no longer the transcribed text
"T". -/
theorem C4_counterexample :
    sDone.transcript = "T" ∧
    sSaved.transcript = "T\n\n[Saved to Drive] L" ∧
    sSaved.transcript ≠ sDone.transcript ∧
    sSaved.status = "saved" := by
  decide

/-- Claim C4 (amended): every resolution of a persist request appends its
annotation (the Drive reference on success, the error payload or message
on failure) to the stored transcript value itself; there is no separate
displayed projection.  The summary and action-item fields are not
touched. -/
theorem C4_save_appends_to_stored_transcript (s : SessionState) (r : SaveResult)
    (h : 0 < s.pendingSaves) :
    (step s (.saveResolve r)).transcript = s.transcript ++ saveSuffix r ∧
    (step s (.saveResolve r)).status = saveStatusOf r ∧
    (step s (.saveResolve r)).summary = s.summary ∧
    (step s (.saveResolve r)).actionItems = s.actionItems := by
  simp [step, h, saveResolveStep]

/-- Claim C4 witness: the amended statement at the reachable in-flight
save state of the happy path. -/
theorem C4_save_appends_witness :
    0 < (step sDone .clickSave).pendingSaves ∧
    ((step (step sDone .clickSave)
        (.saveResolve (.response true (.obj [("file", .obj [("webViewLink", .str "L")])])))).transcript =
      (step sDone .clickSave).transcript ++
        saveSuffix (.response true (.obj [("file", .obj [("webViewLink", .str "L")])])) ∧
     (step (step sDone .clickSave)
        (.saveResolve (.response true (.obj [("file", .obj [("webViewLink", .str "L")])])))).status =
      saveStatusOf (.response true (.obj [("file", .obj [("webViewLink", .str "L")])])) ∧
     (step (step sDone .clickSave)
        (.saveResolve (.response true (.obj [("file", .obj [("webViewLink", .str "L")])])))).summary =
      (step sDone .clickSave).summary ∧
     (step (step sDone .clickSave)
        (.saveResolve (.response true (.obj [("file", .obj [("webViewLink", .str "L")])])))).actionItems =
      (step sDone .clickSave).actionItems) :=
  ⟨by decide,
   C4_save_appends_to_stored_transcript (step sDone .clickSave)
     (.response true (.obj [("file", .obj [("webViewLink", .str "L")])])) (by decide)⟩

/-- Claim C5 (counterexample): the controller functions themselves carry
no state guard.  In the reachable rest state `done`, `stopRecording`
still rewrites the status to "stopped"; while recording,
`startRecording`'s synchronous prefix still rewrites the status to
"requesting_mic".  (Only the buttons' `disabled` attributes — part of
the display layer — prevent these invocations.) -/
theorem C5_counterexample :
    sDone.status = "done" ∧
    (stopRecording sDone).status = "stopped" ∧
    (stopRecording sDone).status ≠ sDone.status ∧
    sRec.status = "recording" ∧
    (startRecordingSync sRec).status = "requesting_mic" ∧
    (startRecordingSync sRec).status ≠ sRec.status := by
  decide

/-- Claim C5 (amended): `stopRecording`, invoked in any state, sets
`recording := false` and `status := "stopped"` (only the recorder stop
and track release are conditional), and `startRecording` in any state
enters `requesting_mic`; the spec's guard rules hold only of the button
clicks: with the `recording` flag false a Stop click is ignored, and
with it true a Record click is ignored. -/
theorem C5_guards_live_in_the_buttons (s : SessionState) :
    (stopRecording s).recording = false ∧
    (stopRecording s).status = "stopped" ∧
    (startRecordingSync s).status = "requesting_mic" ∧
    step { s with recording := false } .clickStop = { s with recording := false } ∧
    step { s with recording := true } .clickRecord = { s with recording := true } :=
  ⟨rfl, rfl, rfl, rfl, rfl⟩

/-- Claim C6 (counterexample): in the reachable state where a save and a
summarize were both started and the save resolved first, the summarize
is still outstanding (`pendingSummarizes = 1`) yet the status reads
"saved" — the single shared status field cannot reflect both in-flight
sub-operations. -/
theorem C6_counterexample :
    sBoth.pendingSummarizes = 1 ∧ sBoth.status = "saved" ∧
    ¬ statusConsistent sBoth := by
  decide

/-- Claim C6 (amended): the two follow-on operations have disjoint result
fields — a save resolution never touches `summary`, `actionItems` or the
count of outstanding summarize operations, and a summarize resolution
never touches `transcript` or the count of outstanding saves — but they
share the single `status` field, whose last writer wins. -/
theorem C6_result_fields_disjoint (s : SessionState) (r : SaveResult)
    (q : SummarizeResult) :
    (step s (.saveResolve r)).summary = s.summary ∧
    (step s (.saveResolve r)).actionItems = s.actionItems ∧
    (step s (.saveResolve r)).pendingSummarizes = s.pendingSummarizes ∧
    (step s (.summarizeResolve q)).transcript = s.transcript ∧
    (step s (.summarizeResolve q)).pendingSaves = s.pendingSaves := by
  cases r with
  | response ok j =>
      cases q with
      | response ok2 j2 =>
          simp only [step, saveResolveStep, summarizeResolveStep]
          refine ⟨?_, ?_, ?_, ?_, ?_⟩ <;> split <;> try rfl
          all_goals (split <;> rfl)
      | failed m =>
          simp only [step, saveResolveStep, summarizeResolveStep]
          refine ⟨?_, ?_, ?_, ?_, ?_⟩ <;> split <;> rfl
  | failed m =>
      cases q with
      | response ok2 j2 =>
          simp only [step, saveResolveStep, summarizeResolveStep]
          refine ⟨?_, ?_, ?_, ?_, ?_⟩ <;> split <;> try rfl
          all_goals (split <;> rfl)
      | failed m2 =>
          simp only [step, saveResolveStep, summarizeResolveStep]
          refine ⟨?_, ?_, ?_, ?_, ?_⟩ <;> split <;> rfl

/-- Claim C7: for any sequence of chunks delivered while recording, the
blob built by `mr.onstop` is the ordered concatenation of the non-empty
chunks (zero-length chunks contribute nothing), with mime type
`audio/webm`; the status at that point is `uploading`.  In particular
the {5,0,7} scenario yields a 12-byte payload. -/
theorem C7_recording_payload (cs : List (List Nat)) :
    (run init ([Event.clickRecord, Event.grantDevice] ++ cs.map Event.dataAvailable ++
        [Event.clickStop, Event.recorderStopped])).lastBlob =
      some { bytes := (cs.filter (fun c => 0 < c.length)).flatten, mime := "audio/webm" } ∧
    (run init ([Event.clickRecord, Event.grantDevice] ++ cs.map Event.dataAvailable ++
        [Event.clickStop, Event.recorderStopped])).status = "uploading" ∧
    (run init tr537).lastBlob.map (fun b => b.bytes.length) = some 12 := by
  rw [run_append, run_append, deliver_chunks]
  exact ⟨rfl, rfl, by decide⟩

/-- Claim C8: when the transcription endpoint's JSON body has no
`transcription` field, the transcript is set to the stringified JSON of
the whole body and the status becomes `done`. -/
theorem C8_absent_transcription_field (s : SessionState) (j : Json)
    (hp : 0 < s.uploadPending) (hl : lookupField j "transcription" = none) :
    (step s (.uploadResolve (.jsonOf j))).transcript = stringify j ∧
    (step s (.uploadResolve (.jsonOf j))).status = "done" := by
  have h1 : uploadTranscript j = stringify j := by
    unfold uploadTranscript
    rw [hl]
  simp [step, hp, uploadFinish, h1]

/-- Claim C8 witness: the reachable uploading state receiving the body
from the spec scenario. -/
theorem C8_absent_transcription_witness :
    0 < sUploading.uploadPending ∧
    lookupField (Json.obj [("unexpected", Json.str "shape")]) "transcription" = none ∧
    ((step sUploading
        (.uploadResolve (.jsonOf (Json.obj [("unexpected", Json.str "shape")])))).transcript =
      stringify (Json.obj [("unexpected", Json.str "shape")]) ∧
     (step sUploading
        (.uploadResolve (.jsonOf (Json.obj [("unexpected", Json.str "shape")])))).status =
      "done") ∧
    stringify (Json.obj [("unexpected", Json.str "shape")]) =
      "\x7b\"unexpected\":\"shape\"\x7d" :=
  ⟨by decide, rfl,
   C8_absent_transcription_field sUploading (Json.obj [("unexpected", Json.str "shape")])
     (by decide) rfl,
   rfl⟩

/-- Claim C9: when the `transcription` field is present but equal to the
empty string (a falsy value), `json.transcription || JSON.stringify(json)`
takes the fallback: the transcript is set to the stringified JSON of the
whole body, not to the empty string, and the status becomes `done`. -/
theorem C9_empty_transcription_field (s : SessionState) (j : Json)
    (hp : 0 < s.uploadPending)
    (hl : lookupField j "transcription" = some (.str "")) :
    (step s (.uploadResolve (.jsonOf j))).transcript = stringify j ∧
    (step s (.uploadResolve (.jsonOf j))).status = "done" := by
  have h1 : uploadTranscript j = stringify j := by
    unfold uploadTranscript
    rw [hl]
    rfl
  simp [step, hp, uploadFinish, h1]

/-- Claim C9 witness: a body whose `transcription` field is the empty
string. -/
theorem C9_empty_transcription_witness :
    0 < sUploading.uploadPending ∧
    lookupField (Json.obj [("transcription", Json.str "")]) "transcription" =
      some (.str "") ∧
    ((step sUploading
        (.uploadResolve (.jsonOf (Json.obj [("transcription", Json.str "")])))).transcript =
      stringify (Json.obj [("transcription", Json.str "")]) ∧
     (step sUploading
        (.uploadResolve (.jsonOf (Json.obj [("transcription", Json.str "")])))).status =
      "done") ∧
    stringify (Json.obj [("transcription", Json.str "")]) =
      "\x7b\"transcription\":\"\"\x7d" :=
  ⟨by decide, rfl,
   C9_empty_transcription_field sUploading (Json.obj [("transcription", Json.str "")])
     (by decide) rfl,
   rfl⟩

/-- Claim C10: whenever the Summarize button fires, the request body it
records is `JSON.stringify` of an object whose `text` field is the
current transcript and whose `num_sentences` field is the constant 3;
no caller-supplied sentence count exists. -/
theorem C10_summarize_request_body (s : SessionState)
    (h1 : s.transcript ≠ "") (h2 : s.status ≠ "summarizing") :
    (step s .clickSummarize).lastSummarizeBody =
      some (stringify (summarizeRequestBody s.transcript)) ∧
    lookupField (summarizeRequestBody s.transcript) "num_sentences" =
      some (.num 3) ∧
    lookupField (summarizeRequestBody s.transcript) "text" =
      some (.str s.transcript) := by
  have hc : ¬(s.transcript = "" ∨ s.status = "summarizing") := by
    simp [h1, h2]
  exact ⟨by simp [step, hc, clickSummarizeStep], rfl, rfl⟩

/-- Claim C10 witness: the happy-path `done` state with transcript
"T". -/
theorem C10_summarize_request_witness :
    sDone.transcript ≠ "" ∧ sDone.status ≠ "summarizing" ∧
    ((step sDone .clickSummarize).lastSummarizeBody =
        some (stringify (summarizeRequestBody sDone.transcript)) ∧
      lookupField (summarizeRequestBody sDone.transcript) "num_sentences" =
        some (.num 3) ∧
      lookupField (summarizeRequestBody sDone.transcript) "text" =
        some (.str sDone.transcript)) :=
  ⟨by decide, by decide,
   C10_summarize_request_body sDone (by decide) (by decide)⟩
